import Mathlib

/-!
Shallow embedding of `examples/threat-monitoring-agent.py` from the
Veridano MCP server repository: the `VeridanoThreatMonitor` monitoring
cycle (its five category checks, the dispatch of the alert batch, the
scheduling loop of `start_monitoring`), the default alert handler and the
`CustomAlertHandler` class.

Modelling conventions:
- Python floats (CVSS scores) become `ℚ`; every literal in the source has
  an exact value and only order comparisons are performed on them.
- Python strings become Lean `String`; `str.lower()` becomes an ASCII
  character map, and the `needle in hay` substring test becomes an
  executable containment check over the character lists.
- A dictionary returned by a search is a `Doc` record; the one field the
  source reads with `doc.get("cvss_score", 0)` is an `Option ℚ`, the
  fields read with mandatory indexing (`doc["id"]`, ...) are plain fields.
- Code that can raise (a transport error inside a category query) returns
  `Except String`; exception propagation is the `Except` match.
-/

namespace Veridano

/-- Python `hay.startswith(needle)` on character lists; the first argument
is the needle. -/
def listStartsWith : List Char → List Char → Bool
  | [], _ => true
  | _ :: _, [] => false
  | a :: as, b :: bs => a == b && listStartsWith as bs

/-- Python `needle in hay` (substring containment) on character lists. -/
def listContainsSub (needle : List Char) : List Char → Bool
  | [] => needle.isEmpty
  | c :: rest => listStartsWith needle (c :: rest) || listContainsSub needle rest

/-- Python `s.lower()` restricted to ASCII, as the source only compares
ASCII keywords. -/
def strToLower (s : String) : String := String.mk (s.toList.map Char.toLower)

/-- Python `needle in hay` on strings. -/
def strContainsSub (needle hay : String) : Bool :=
  listContainsSub needle.toList hay.toList

/-- Python `s[:n]` on strings. -/
def strTake (n : Nat) (s : String) : String := String.mk (s.toList.take n)

/-- One document of a search result (`results["documents"]` element).
`cvss_score` is optional: the source reads it with `doc.get("cvss_score", 0)`;
every other field is read with mandatory indexing. -/
structure Doc where
  id : String
  title : String
  content : String
  source : String
  cvss_score : Option ℚ
  published_date : String
deriving DecidableEq

/-- The `ThreatAlert` dataclass of the source. -/
structure ThreatAlert where
  id : String
  title : String
  source : String
  severity : String
  cvss_score : ℚ
  published_date : String
  summary : String
  recommended_action : String
deriving DecidableEq

/-- Threshold `self.critical_cvss_threshold = 9.0` from `VeridanoThreatMonitor.__init__`. -/
def critical_cvss_threshold : ℚ := 9

/-- Method `VeridanoThreatMonitor._check_critical_vulnerabilities`, classification
part: for each document, read `cvss = doc.get("cvss_score", 0)` and emit a
CRITICAL alert when `cvss >= self.critical_cvss_threshold`. -/
def check_critical_vulnerabilities (docs : List Doc) : List ThreatAlert :=
  docs.filterMap fun doc =>
    let cvss := doc.cvss_score.getD 0
    if critical_cvss_threshold ≤ cvss then
      some { id := doc.id, title := doc.title, source := doc.source,
             severity := "CRITICAL", cvss_score := cvss,
             published_date := doc.published_date,
             summary := strTake 200 doc.content ++ "...",
             recommended_action := "IMMEDIATE patching required" }
    else none

/-- Method `VeridanoThreatMonitor._check_emergency_directives`, classification
part: emit an EMERGENCY alert with score 10.0 for each document whose
title contains `"emergency"` after lowercasing. -/
def check_emergency_directives (docs : List Doc) : List ThreatAlert :=
  docs.filterMap fun doc =>
    if strContainsSub "emergency" (strToLower doc.title) then
      some { id := doc.id, title := doc.title, source := doc.source,
             severity := "EMERGENCY", cvss_score := 10,
             published_date := doc.published_date,
             summary := strTake 200 doc.content ++ "...",
             recommended_action := "COMPLY immediately - Federal mandate" }
    else none

/-- Method `VeridanoThreatMonitor._check_apt_activity`, classification part. -/
def check_apt_activity (docs : List Doc) : List ThreatAlert :=
  docs.filterMap fun doc =>
    if strContainsSub "apt" (strToLower doc.content)
        ∨ strContainsSub "nation-state" (strToLower doc.content)
        ∨ strContainsSub "attribution" (strToLower doc.content) then
      some { id := doc.id, title := doc.title, source := doc.source,
             severity := "HIGH", cvss_score := mkRat 17 2,
             published_date := doc.published_date,
             summary := strTake 200 doc.content ++ "...",
             recommended_action := "Review threat indicators and enhance monitoring" }
    else none

/-- Method `VeridanoThreatMonitor._check_zeroday_activity`, classification part. -/
def check_zeroday_activity (docs : List Doc) : List ThreatAlert :=
  docs.filterMap fun doc =>
    if strContainsSub "zero-day" (strToLower doc.content) then
      some { id := doc.id, title := doc.title, source := doc.source,
             severity := "CRITICAL", cvss_score := mkRat 19 2,
             published_date := doc.published_date,
             summary := strTake 200 doc.content ++ "...",
             recommended_action := "URGENT - Implement defensive measures immediately" }
    else none

/-- Method `VeridanoThreatMonitor._check_infrastructure_threats`, classification
part. -/
def check_infrastructure_threats (docs : List Doc) : List ThreatAlert :=
  docs.filterMap fun doc =>
    if strContainsSub "energy" (strToLower doc.content)
        ∨ strContainsSub "water" (strToLower doc.content)
        ∨ strContainsSub "transportation" (strToLower doc.content)
        ∨ strContainsSub "manufacturing" (strToLower doc.content) then
      some { id := doc.id, title := doc.title, source := doc.source,
             severity := "HIGH", cvss_score := 8,
             published_date := doc.published_date,
             summary := strTake 200 doc.content ++ "...",
             recommended_action := "Coordinate with sector security teams" }
    else none

/-- The outcome of the five category searches performed by one cycle, in
source order.  Each search is an awaited call that may raise (modelled
`Except`); its document list feeds the classification above. -/
structure QueryResults where
  critical : Except String (List Doc)
  emergency : Except String (List Doc)
  apt : Except String (List Doc)
  zeroday : Except String (List Doc)
  infra : Except String (List Doc)

/-- Method `VeridanoThreatMonitor._monitoring_cycle`, alert-collection part: the
five category checks run in order, each `await` re-raising any exception
of its search (there is no try/except inside the cycle), and their alert
lists are concatenated with `alerts.extend(...)`. -/
def monitoring_cycle (q : QueryResults) : Except String (List ThreatAlert) :=
  match q.critical with
  | .error e => .error e
  | .ok d1 =>
    match q.emergency with
    | .error e => .error e
    | .ok d2 =>
      match q.apt with
      | .error e => .error e
      | .ok d3 =>
        match q.zeroday with
        | .error e => .error e
        | .ok d4 =>
          match q.infra with
          | .error e => .error e
          | .ok d5 =>
            .ok (check_critical_vulnerabilities d1 ++ check_emergency_directives d2
                 ++ check_apt_activity d3 ++ check_zeroday_activity d4
                 ++ check_infrastructure_threats d5)

/-- The mutable monitor state the cycle touches: `self.monitoring_active`
and `self.last_check` (a timestamp, abstracted to `Nat`). -/
structure Session where
  monitoring_active : Bool
  last_check : Nat
deriving DecidableEq

/-- One full run of `_monitoring_cycle` at time `now`: on success it
invokes `self.alert_callback(alerts)` once when `alerts` is non-empty
(and not at all otherwise) and then sets `self.last_check = now`; an
exception anywhere in the cycle propagates to the caller.  The second
component lists the batches passed to the alert callback, one list entry
per invocation. -/
def run_cycle (s : Session) (q : QueryResults) (now : Nat) :
    Except String (Session × List (List ThreatAlert)) :=
  match monitoring_cycle q with
  | .error e => .error e
  | .ok alerts =>
    .ok ({ s with last_check := now }, if alerts.isEmpty then [] else [alerts])

/-- Method `VeridanoThreatMonitor.start_monitoring`, entry part: it prints a
banner and sets `self.monitoring_active = True`, with no validation of
`interval_minutes`; the `Except` result records that this entry code has
no failing path. -/
def start_monitoring (_interval_minutes : Int) (s : Session) : Except String Session :=
  .ok { s with monitoring_active := true }

/-- The `while self.monitoring_active` loop of `start_monitoring`, run
against a finite schedule of cycle inputs (query results and clock
readings).  Each iteration runs one cycle inside try/except: on success it
sleeps `interval_minutes * 60` seconds, on any exception it sleeps 60
seconds and keeps looping.  The trace records, per iteration, the sleep in
seconds and the batches dispatched during that cycle. -/
def monitoring_loop (interval_minutes : Int) (s : Session) :
    List (QueryResults × Nat) → Session × List (Int × List (List ThreatAlert))
  | [] => (s, [])
  | (q, now) :: rest =>
    if s.monitoring_active then
      match run_cycle s q now with
      | .ok (s1, batches) =>
        let r := monitoring_loop interval_minutes s1 rest
        (r.1, (interval_minutes * 60, batches) :: r.2)
      | .error _ =>
        let r := monitoring_loop interval_minutes s rest
        (r.1, (60, []) :: r.2)
    else (s, [])

/-- The severity rank dictionary of `_default_alert_handler`:
`{"EMERGENCY": 0, "CRITICAL": 1, "HIGH": 2, "MEDIUM": 3, "LOW": 4}` read
with `.get(x.severity, 5)`. -/
def severity_order (sev : String) : Nat :=
  if sev = "EMERGENCY" then 0
  else if sev = "CRITICAL" then 1
  else if sev = "HIGH" then 2
  else if sev = "MEDIUM" then 3
  else if sev = "LOW" then 4
  else 5

/-- Stable insertion of `a` into `l`: `a` goes after every element whose
key is less than or equal to its own. -/
def insertStable {α : Type} (key : α → Nat) (a : α) : List α → List α
  | [] => [a]
  | b :: bs => if key b ≤ key a then b :: insertStable key a bs else a :: b :: bs

/-- Python `sorted(l, key=key)`: a stable sort by `key`.  A stable sort by
a fixed key is unique, so this insertion sort and CPython timsort agree on
every input. -/
def stableSortByKey {α : Type} (key : α → Nat) (l : List α) : List α :=
  l.foldl (fun acc a => insertStable key a acc) []

/-- Method `VeridanoThreatMonitor._default_alert_handler`, ordering part:
`sorted(alerts, key=lambda x: severity_order.get(x.severity, 5))`. -/
def sort_alerts (alerts : List ThreatAlert) : List ThreatAlert :=
  stableSortByKey (fun a => severity_order a.severity) alerts

/-- The notification channel `CustomAlertHandler` picks for one alert. -/
inductive Notification where
  | urgent (a : ThreatAlert)
  | standard (a : ThreatAlert)
  | logged (a : ThreatAlert)
deriving DecidableEq

/-- The per-alert branch of `CustomAlertHandler.handle_alerts`:
EMERGENCY and CRITICAL go to the urgent channel, HIGH to the standard
channel, everything else is logged. -/
def route_alert (a : ThreatAlert) : Notification :=
  if a.severity = "EMERGENCY" ∨ a.severity = "CRITICAL" then .urgent a
  else if a.severity = "HIGH" then .standard a
  else .logged a

/-- Method `CustomAlertHandler.handle_alerts`: every alert of the batch is
appended to `self.alert_history` and routed to a channel; the history is
never consulted or pruned. -/
def handle_alerts (history : List ThreatAlert) (alerts : List ThreatAlert) :
    List ThreatAlert × List Notification :=
  alerts.foldl (fun st a => (st.1 ++ [a], st.2 ++ [route_alert a])) (history, [])

/-! Concrete fixtures used by witnesses and counterexamples. -/

/-- The critical-vulnerability scenario document of the spec
(`CVE-2024-38063`, score 9.8). -/
def cvd : Doc :=
  { id := "CVE-2024-38063", title := "Windows TCP IP RCE",
    content := "Remote code execution vulnerability in the Windows TCP IP stack",
    source := "NVD", cvss_score := some (mkRat 49 5), published_date := "2024-08-13" }

/-- The emergency-directive scenario document of the spec. -/
def edoc : Doc :=
  { id := "X-1", title := "CISA Emergency Directive 24-02",
    content := "Federal agencies must act",
    source := "CISA", cvss_score := none, published_date := "2024-01-31" }

/-- A qualifying zero-day document. -/
def zdoc : Doc :=
  { id := "Z-1", title := "Exploitation report",
    content := "Active zero-day exploitation in the wild",
    source := "FBI", cvss_score := none, published_date := "2024-02-02" }

/-- A qualifying infrastructure-threat document. -/
def idoc : Doc :=
  { id := "I-1", title := "Grid threat",
    content := "Attack campaign against the energy sector",
    source := "ICS-CERT", cvss_score := none, published_date := "2024-03-03" }

/-- A fresh monitor state, as after `__init__` once monitoring is on. -/
def s0 : Session := { monitoring_active := true, last_check := 0 }

/-- A cycle whose only qualifying finding is the emergency directive. -/
def qE : QueryResults :=
  { critical := .ok [], emergency := .ok [edoc], apt := .ok [],
    zeroday := .ok [], infra := .ok [] }

/-- The alert `check_emergency_directives` derives from `edoc`. -/
def eAlert : ThreatAlert :=
  { id := "X-1", title := "CISA Emergency Directive 24-02", source := "CISA",
    severity := "EMERGENCY", cvss_score := 10,
    published_date := "2024-01-31",
    summary := "Federal agencies must act...",
    recommended_action := "COMPLY immediately - Federal mandate" }

/-- A cycle in which the APT-activity search raises a transport error
while the other four categories succeed, each with one qualifying
document. -/
def qApt : QueryResults :=
  { critical := .ok [cvd], emergency := .ok [edoc],
    apt := .error "transport error", zeroday := .ok [zdoc], infra := .ok [idoc] }

/-- A document whose body is 10 characters, well under the 200-character
truncation limit, and which qualifies as a critical vulnerability. -/
def shortDoc : Doc :=
  { id := "S-1", title := "Short advisory", content := "Short body",
    source := "NVD", cvss_score := some (mkRat 19 2), published_date := "2024-04-04" }

/-- The alert `check_critical_vulnerabilities` derives from `shortDoc`. -/
def shortAlert : ThreatAlert :=
  { id := "S-1", title := "Short advisory", source := "NVD",
    severity := "CRITICAL", cvss_score := mkRat 19 2,
    published_date := "2024-04-04", summary := "Short body...",
    recommended_action := "IMMEDIATE patching required" }

/-- A HIGH alert, as produced by the APT check. -/
def hAlert : ThreatAlert :=
  { id := "H-1", title := "APT campaign report", source := "FBI",
    severity := "HIGH", cvss_score := mkRat 17 2, published_date := "2024-05-05",
    summary := "apt...", recommended_action := "Review threat indicators and enhance monitoring" }

/-- A LOW alert, as a custom sink might hand back to the default handler. -/
def lAlert : ThreatAlert :=
  { id := "L-1", title := "Low advisory", source := "CISA",
    severity := "LOW", cvss_score := 2, published_date := "2024-06-06",
    summary := "low...", recommended_action := "Monitor" }

/-- A CRITICAL alert with score 9.0. -/
def cAlertA : ThreatAlert :=
  { id := "C-A", title := "Critical A", source := "NVD",
    severity := "CRITICAL", cvss_score := 9, published_date := "2024-07-07",
    summary := "a...", recommended_action := "IMMEDIATE patching required" }

/-- A CRITICAL alert with score 9.8, listed after `cAlertA`. -/
def cAlertB : ThreatAlert :=
  { id := "C-B", title := "Critical B", source := "NVD",
    severity := "CRITICAL", cvss_score := mkRat 49 5, published_date := "2024-07-08",
    summary := "b...", recommended_action := "IMMEDIATE patching required" }

/-! General lemmas about the embedded operations, shared by the claim
theorems below. -/

theorem insertStable_perm {α : Type} (key : α → Nat) (a : α) :
    ∀ l : List α, (insertStable key a l).Perm (a :: l)
  | [] => List.Perm.refl _
  | b :: bs => by
    unfold insertStable
    by_cases h : key b ≤ key a
    · rw [if_pos h]
      exact ((insertStable_perm key a bs).cons b).trans (List.Perm.swap a b bs)
    · rw [if_neg h]

theorem insertStable_pairwise {α : Type} (key : α → Nat) (a : α) :
    ∀ l : List α, l.Pairwise (fun x y => key x ≤ key y) →
      (insertStable key a l).Pairwise (fun x y => key x ≤ key y)
  | [], _ => by simp [insertStable]
  | b :: bs, h => by
    rw [List.pairwise_cons] at h
    obtain ⟨hb, hbs⟩ := h
    unfold insertStable
    by_cases hba : key b ≤ key a
    · rw [if_pos hba, List.pairwise_cons]
      refine ⟨fun y hy => ?_, insertStable_pairwise key a bs hbs⟩
      rcases List.mem_cons.1 ((insertStable_perm key a bs).mem_iff.1 hy) with rfl | hyb
      · exact hba
      · exact hb y hyb
    · rw [if_neg hba, List.pairwise_cons]
      have hab : key a ≤ key b := le_of_not_le hba
      refine ⟨fun y hy => ?_, List.pairwise_cons.2 ⟨hb, hbs⟩⟩
      rcases List.mem_cons.1 hy with rfl | hyb
      · exact hab
      · exact le_trans hab (hb y hyb)

theorem foldl_insertStable_perm {α : Type} (key : α → Nat) :
    ∀ (l acc : List α),
      (l.foldl (fun acc a => insertStable key a acc) acc).Perm (acc ++ l)
  | [], acc => by simp
  | a :: l, acc => by
    simp only [List.foldl_cons]
    refine (foldl_insertStable_perm key l (insertStable key a acc)).trans ?_
    refine ((insertStable_perm key a acc).append_right l).trans ?_
    exact List.perm_middle.symm

theorem foldl_insertStable_pairwise {α : Type} (key : α → Nat) :
    ∀ (l acc : List α), acc.Pairwise (fun x y => key x ≤ key y) →
      (l.foldl (fun acc a => insertStable key a acc) acc).Pairwise
        (fun x y => key x ≤ key y)
  | [], _, h => h
  | a :: l, acc, h => by
    simp only [List.foldl_cons]
    exact foldl_insertStable_pairwise key l _ (insertStable_pairwise key a acc h)

theorem stableSortByKey_perm {α : Type} (key : α → Nat) (l : List α) :
    (stableSortByKey key l).Perm l :=
  foldl_insertStable_perm key l []

theorem stableSortByKey_pairwise {α : Type} (key : α → Nat) (l : List α) :
    (stableSortByKey key l).Pairwise (fun x y => key x ≤ key y) :=
  foldl_insertStable_pairwise key l [] List.Pairwise.nil

theorem run_cycle_active (s : Session) (q : QueryResults) (now : Nat)
    (p : Session × List (List ThreatAlert)) (h : run_cycle s q now = .ok p) :
    p.1.monitoring_active = s.monitoring_active := by
  unfold run_cycle at h
  cases hm : monitoring_cycle q <;> rw [hm] at h
  · exact absurd h (by simp)
  · rw [Except.ok.injEq] at h
    subst h
    rfl

theorem monitoring_loop_length (i : Int) :
    ∀ (evs : List (QueryResults × Nat)) (s : Session),
      s.monitoring_active = true →
      (monitoring_loop i s evs).2.length = evs.length
  | [], _, _ => rfl
  | (q, now) :: evs, s, h => by
    unfold monitoring_loop
    simp only [h, if_true]
    cases hr : run_cycle s q now with
    | ok p =>
      obtain ⟨s1, batches⟩ := p
      have hp := run_cycle_active s q now (s1, batches) hr
      simp only [List.length_cons]
      rw [monitoring_loop_length i evs s1 (hp.trans h)]
    | error e =>
      simp only [List.length_cons]
      rw [monitoring_loop_length i evs s h]

theorem monitoring_loop_error_step (i : Int) (s : Session) (q : QueryResults)
    (now : Nat) (evs : List (QueryResults × Nat)) (e : String)
    (hact : s.monitoring_active = true) (hrc : run_cycle s q now = .error e) :
    monitoring_loop i s ((q, now) :: evs)
      = ((monitoring_loop i s evs).1, (60, []) :: (monitoring_loop i s evs).2) := by
  rw [monitoring_loop]
  simp [hact, hrc]

/-! Claim theorems. -/

/-- Claim C5 (confirmed): under the emergency-directive category, a
Finding produces an Alert iff its title contains "emergency"
case-insensitively, and every Alert produced has severity EMERGENCY and
score exactly 10.0, regardless of the score carried by the Finding
itself. -/
theorem emergency_directive_rule (d : Doc) :
    (check_emergency_directives [d] ≠ [] ↔
      strContainsSub "emergency" (strToLower d.title) = true)
    ∧ ∀ a ∈ check_emergency_directives [d],
        a.severity = "EMERGENCY" ∧ a.cvss_score = 10 := by
  by_cases h : strContainsSub "emergency" (strToLower d.title) = true
  · refine ⟨by simp [check_emergency_directives, h], fun a ha => ?_⟩
    simp [check_emergency_directives, h] at ha
    rw [ha]
    exact ⟨rfl, rfl⟩
  · refine ⟨by simp [check_emergency_directives, h], fun a ha => ?_⟩
    simp [check_emergency_directives, h] at ha

/-- Witness for C5: the CISA Emergency Directive 24-02 scenario document
qualifies and its alert is EMERGENCY with score 10. -/
theorem emergency_directive_rule_witness :
    check_emergency_directives [edoc] ≠ []
    ∧ ∀ a ∈ check_emergency_directives [edoc],
        a.severity = "EMERGENCY" ∧ a.cvss_score = 10 :=
  ⟨(emergency_directive_rule edoc).1.mpr (by decide),
   (emergency_directive_rule edoc).2⟩

/-- Claim C6 (confirmed): under the critical-vulnerability category, a
Finding produces an Alert iff its numeric score (0 when absent) is at
least 9.0, and every Alert produced has severity CRITICAL, carries the
Finding score unchanged, and recommends "IMMEDIATE patching required". -/
theorem critical_vulnerability_rule (d : Doc) :
    (check_critical_vulnerabilities [d] ≠ [] ↔ (9 : ℚ) ≤ d.cvss_score.getD 0)
    ∧ ∀ a ∈ check_critical_vulnerabilities [d],
        a.severity = "CRITICAL" ∧ a.cvss_score = d.cvss_score.getD 0
        ∧ a.recommended_action = "IMMEDIATE patching required" := by
  by_cases h : critical_cvss_threshold ≤ d.cvss_score.getD 0
  · refine ⟨?_, fun a ha => ?_⟩
    · simp [check_critical_vulnerabilities, h, critical_cvss_threshold]
    · simp [check_critical_vulnerabilities, h] at ha
      rw [ha]
      exact ⟨rfl, rfl, rfl⟩
  · refine ⟨?_, fun a ha => ?_⟩
    · simp [check_critical_vulnerabilities, h, critical_cvss_threshold]
    · simp [check_critical_vulnerabilities, h] at ha

/-- Witness for C6: the CVE-2024-38063 scenario document with score 9.8
qualifies and its alert is CRITICAL with score 9.8 and the fixed action
string. -/
theorem critical_vulnerability_rule_witness :
    check_critical_vulnerabilities [cvd] ≠ []
    ∧ ∀ a ∈ check_critical_vulnerabilities [cvd],
        a.severity = "CRITICAL" ∧ a.cvss_score = cvd.cvss_score.getD 0
        ∧ a.recommended_action = "IMMEDIATE patching required" :=
  ⟨(critical_vulnerability_rule cvd).1.mpr (by decide),
   (critical_vulnerability_rule cvd).2⟩

/-- Claim C10 (confirmed): a document returned by the
critical-vulnerability query that lacks a `cvss_score` field is treated
as having score 0, never qualifies for an alert, and its presence
anywhere in the result list contributes nothing (the lookup is total, so
no error is possible). -/
theorem missing_cvss_score_no_alert (d : Doc) (pre post : List Doc)
    (h : d.cvss_score = none) :
    d.cvss_score.getD 0 = 0
    ∧ check_critical_vulnerabilities (pre ++ d :: post)
        = check_critical_vulnerabilities pre ++ check_critical_vulnerabilities post := by
  have h0 : d.cvss_score.getD 0 = 0 := by rw [h]; rfl
  have hlt : ¬ critical_cvss_threshold ≤ d.cvss_score.getD 0 := by
    rw [h0]
    norm_num [critical_cvss_threshold]
  refine ⟨h0, ?_⟩
  unfold check_critical_vulnerabilities
  rw [List.filterMap_append, List.filterMap_cons]
  simp [hlt]

/-- Witness for C10: a scoreless document between two scored ones yields
exactly the alerts of its neighbours. -/
theorem missing_cvss_score_no_alert_witness :
    edoc.cvss_score.getD 0 = 0
    ∧ check_critical_vulnerabilities ([cvd] ++ edoc :: [shortDoc])
        = check_critical_vulnerabilities [cvd] ++ check_critical_vulnerabilities [shortDoc] :=
  missing_cvss_score_no_alert edoc [cvd] [shortDoc] rfl

/-- Claim C3 counterexample: `shortDoc` has a 10-character body, yet its
alert summary is the body with the "..." marker appended, not the body
unchanged. -/
theorem summary_marker_counterexample :
    shortDoc.content.length ≤ 200
    ∧ (check_critical_vulnerabilities [shortDoc]).map ThreatAlert.summary
        = ["Short body..."]
    ∧ ("Short body..." : String) ≠ shortDoc.content :=
  ⟨by decide, by decide, by decide⟩

/-- Claim C3 (corrected): the summary of every alert produced by the
critical-vulnerability or zero-day check is the first 200 characters of
the source document body with the truncation marker "..." appended
unconditionally, even when the body has at most 200 characters. -/
theorem summary_always_truncated (docs : List Doc) (a : ThreatAlert)
    (h : a ∈ check_critical_vulnerabilities docs ∨ a ∈ check_zeroday_activity docs) :
    ∃ d ∈ docs, a.summary = strTake 200 d.content ++ "..." := by
  rcases h with h | h
  · unfold check_critical_vulnerabilities at h
    rw [List.mem_filterMap] at h
    obtain ⟨d, hd, hfd⟩ := h
    refine ⟨d, hd, ?_⟩
    by_cases hc : critical_cvss_threshold ≤ d.cvss_score.getD 0
    · simp [hc] at hfd
      rw [← hfd]
    · simp [hc] at hfd
  · unfold check_zeroday_activity at h
    rw [List.mem_filterMap] at h
    obtain ⟨d, hd, hfd⟩ := h
    refine ⟨d, hd, ?_⟩
    by_cases hc : strContainsSub "zero-day" (strToLower d.content) = true
    · simp [hc] at hfd
      rw [← hfd]
    · simp [hc] at hfd

/-- Witness for C3: the alert derived from `shortDoc` carries the
truncated-and-marked summary. -/
theorem summary_always_truncated_witness :
    ∃ d ∈ [shortDoc], shortAlert.summary = strTake 200 d.content ++ "..." :=
  summary_always_truncated [shortDoc] shortAlert (Or.inl (by decide))

/-- Claim C4 counterexample: two CRITICAL alerts with scores 9.0 and 9.8,
given in that order, are dispatched in that same order — the handler does
not reorder equal-severity alerts by score descending. -/
theorem sort_no_score_tiebreak_counterexample :
    cAlertA.severity = cAlertB.severity
    ∧ (sort_alerts [cAlertA, cAlertB]).map ThreatAlert.cvss_score = [9, mkRat 49 5]
    ∧ ¬ (mkRat 49 5 ≤ (9 : ℚ)) :=
  ⟨rfl, by decide, by decide⟩

/-- Claim C4 (corrected): the dispatched batch is sorted by severity rank
alone (EMERGENCY first, then CRITICAL, HIGH, MEDIUM, LOW); equal-severity
alerts keep their incoming order and the numeric score is never consulted.
The concrete batch [HIGH, EMERGENCY, LOW, CRITICAL] is dispatched as
[EMERGENCY, CRITICAL, HIGH, LOW]. -/
theorem dispatch_sorted_by_severity (alerts : List ThreatAlert) :
    (sort_alerts alerts).Perm alerts
    ∧ (sort_alerts alerts).Pairwise
        (fun x y => severity_order x.severity ≤ severity_order y.severity)
    ∧ (sort_alerts [hAlert, eAlert, lAlert, cAlertA]).map ThreatAlert.severity
        = ["EMERGENCY", "CRITICAL", "HIGH", "LOW"] :=
  ⟨stableSortByKey_perm _ alerts, stableSortByKey_pairwise _ alerts, by decide⟩

/-- Claim C9 (confirmed): within a completed cycle, the alert callback is
invoked exactly once iff the cycle produced at least one alert, and that
single invocation receives the full alert batch; a cycle with zero alerts
makes no callback invocation. -/
theorem dispatch_once_iff_alerts (s : Session) (q : QueryResults) (now : Nat)
    (alerts : List ThreatAlert) (h : monitoring_cycle q = .ok alerts) :
    ∃ batches : List (List ThreatAlert),
      run_cycle s q now = .ok ({ s with last_check := now }, batches)
      ∧ (batches.length = 1 ↔ alerts ≠ [])
      ∧ (alerts ≠ [] → batches = [alerts])
      ∧ (alerts = [] → batches = []) := by
  refine ⟨if alerts.isEmpty then [] else [alerts], ?_, ?_, ?_, ?_⟩
  · unfold run_cycle
    rw [h]
  · cases alerts <;> simp
  · cases alerts <;> simp
  · cases alerts <;> simp

/-- Witness for C9: the emergency-directive cycle dispatches its single
alert in one callback invocation. -/
theorem dispatch_once_iff_alerts_witness :
    ∃ batches : List (List ThreatAlert),
      run_cycle s0 qE 1 = .ok ({ s0 with last_check := 1 }, batches)
      ∧ (batches.length = 1 ↔ [eAlert] ≠ [])
      ∧ ([eAlert] ≠ [] → batches = [[eAlert]])
      ∧ ([eAlert] = [] → batches = []) :=
  dispatch_once_iff_alerts s0 qE 1 [eAlert] rfl

/-- Claim C2 counterexample: with the APT-activity query failing while the
other four categories succeed and carry qualifying findings, the whole
cycle raises instead of dispatching the successful categories. -/
theorem apt_failure_counterexample :
    check_critical_vulnerabilities [cvd] ≠ []
    ∧ check_emergency_directives [edoc] ≠ []
    ∧ check_zeroday_activity [zdoc] ≠ []
    ∧ check_infrastructure_threats [idoc] ≠ []
    ∧ run_cycle s0 qApt 1 = .error "transport error" :=
  ⟨by decide, by decide, by decide, by decide, rfl⟩

/-- Claim C2 (corrected): there is no per-category error handling inside
the cycle — the first failing category query aborts `_monitoring_cycle`,
the alerts of the categories that succeeded are discarded, and nothing is
dispatched that cycle; the error propagates to the scheduler loop. -/
theorem category_failure_aborts_cycle (q : QueryResults) (e : String)
    (d1 d2 : List Doc) (h1 : q.critical = .ok d1) (h2 : q.emergency = .ok d2)
    (h3 : q.apt = .error e) :
    monitoring_cycle q = .error e
    ∧ ∀ (s : Session) (now : Nat), run_cycle s q now = .error e := by
  have hm : monitoring_cycle q = .error e := by
    unfold monitoring_cycle
    rw [h1, h2, h3]
  exact ⟨hm, fun s now => by unfold run_cycle; rw [hm]⟩

/-- Witness for C2: the concrete failing-APT cycle aborts with the
transport error. -/
theorem category_failure_aborts_cycle_witness :
    monitoring_cycle qApt = .error "transport error"
    ∧ ∀ (s : Session) (now : Nat), run_cycle s qApt now = .error "transport error" :=
  category_failure_aborts_cycle qApt "transport error" [cvd] [edoc] rfl rfl rfl

/-- Claim C1 counterexample: running the cycle twice on the same Finding
set dispatches the same single-alert batch both times — the second cycle
yields one alert, not zero, and the same identifier reaches the custom
handler history twice. -/
theorem dedup_counterexample :
    run_cycle s0 qE 1
        = .ok ({ monitoring_active := true, last_check := 1 }, [[eAlert]])
    ∧ run_cycle { monitoring_active := true, last_check := 1 } qE 2
        = .ok ({ monitoring_active := true, last_check := 2 }, [[eAlert]])
    ∧ (handle_alerts (handle_alerts [] [eAlert]).1 [eAlert]).1 = [eAlert, eAlert]
    ∧ eAlert.id = edoc.id
    ∧ ([[eAlert]] : List (List ThreatAlert)).length ≠ 0 :=
  ⟨rfl, rfl, rfl, rfl, by decide⟩

/-- Claim C1 (corrected): the monitor keeps no alert history and performs
no deduplication — the batches a cycle dispatches depend only on the query
results, never on the session state left by earlier cycles, so the same
Finding set produces the same alerts on every cycle. -/
theorem cycle_output_ignores_session (s1 s2 : Session) (q : QueryResults)
    (n1 n2 : Nat) :
    (run_cycle s1 q n1).map Prod.snd = (run_cycle s2 q n2).map Prod.snd := by
  unfold run_cycle
  cases monitoring_cycle q <;> rfl

/-- Claim C7 counterexample: `start_monitoring` with a negative or zero
interval succeeds and enters the Running state (`monitoring_active`
true) instead of failing fast. -/
theorem no_interval_validation_counterexample :
    start_monitoring (-5) s0 = .ok { monitoring_active := true, last_check := 0 }
    ∧ start_monitoring 0 s0 = .ok { monitoring_active := true, last_check := 0 }
    ∧ ({ monitoring_active := true, last_check := 0 } : Session).monitoring_active
        = true :=
  ⟨rfl, rfl, rfl⟩

/-- Claim C7 (corrected): `start_monitoring` never validates the interval
and never fails — for every interval, positive or not, it enters Running
at once, and thereafter the loop executes every scheduled cycle (nothing
in the core is fatal: cycle errors are caught by the loop). -/
theorem start_monitoring_never_fails (i : Int) (s : Session) :
    start_monitoring i s = .ok { s with monitoring_active := true }
    ∧ ∀ evs : List (QueryResults × Nat),
        (monitoring_loop i { s with monitoring_active := true } evs).2.length
          = evs.length :=
  ⟨rfl, fun evs => monitoring_loop_length i evs { s with monitoring_active := true } rfl⟩

/-- Claim C8 (confirmed): when a cycle raises, the loop stays active,
records a fixed 60-second backoff for that iteration instead of the
configured interval, leaves the session unchanged, and goes on to run
every remaining scheduled cycle. -/
theorem cycle_error_backoff (i : Int) (s : Session) (q : QueryResults)
    (now : Nat) (evs : List (QueryResults × Nat)) (e : String)
    (hact : s.monitoring_active = true) (herr : monitoring_cycle q = .error e) :
    (monitoring_loop i s ((q, now) :: evs)).2
        = (60, []) :: (monitoring_loop i s evs).2
    ∧ (monitoring_loop i s ((q, now) :: evs)).1 = (monitoring_loop i s evs).1
    ∧ (monitoring_loop i s ((q, now) :: evs)).2.length = evs.length + 1 := by
  have hrc : run_cycle s q now = .error e := by
    unfold run_cycle
    rw [herr]
  rw [monitoring_loop_error_step i s q now evs e hact hrc]
  refine ⟨rfl, rfl, ?_⟩
  simp only [List.length_cons, monitoring_loop_length i evs s hact]

/-- Witness for C8: a failing-APT cycle at the head of the schedule backs
off 60 seconds and the loop keeps going. -/
theorem cycle_error_backoff_witness :
    (monitoring_loop 15 s0 [(qApt, 1)]).2
        = (60, []) :: (monitoring_loop 15 s0 []).2
    ∧ (monitoring_loop 15 s0 [(qApt, 1)]).1 = (monitoring_loop 15 s0 []).1
    ∧ (monitoring_loop 15 s0 [(qApt, 1)]).2.length = 1 :=
  cycle_error_backoff 15 s0 qApt 1 [] "transport error" rfl rfl

end Veridano
